import Mathlib

/-!
Verification of the fallback mindmap formatter and the mindmap endpoint of
`src/backend/main.py` (speech-to-text-real-time).

Python strings are shallowly embedded as `List Char`; each definition below
mirrors the corresponding Python expression, with the source line noted in
its doc comment.
-/

set_option autoImplicit false
set_option maxRecDepth 100000

/-- The double-quote character `"` (code point 34). -/
def dquoteChar : Char := Char.ofNat 34

/-- The single-quote character (code point 39). -/
def squoteChar : Char := Char.ofNat 39

/-- The newline character (code point 10). -/
def newlineChar : Char := Char.ofNat 10

/-- ASCII whitespace as recognised by Python `str.strip()` / `str.split()`
(space, tab, newline, carriage return, vertical tab, form feed; the model
restricts Python's Unicode whitespace to its ASCII subset, which is all the
claims depend on). -/
def isPySpace (c : Char) : Bool :=
  c == ' ' || c == Char.ofNat 9 || c == Char.ofNat 10 ||
  c == Char.ofNat 13 || c == Char.ofNat 11 || c == Char.ofNat 12

/-- Python `s.strip()`: drop whitespace from both ends. -/
def pyStrip (s : List Char) : List Char :=
  ((s.dropWhile isPySpace).reverse.dropWhile isPySpace).reverse

/-- Split a list at every element satisfying `p`, keeping empty chunks,
exactly like Python `str.split(c)` does for a one-character separator
(`splitChar` below). `splitP [] = [[]]`, matching `''.split(c) == ['']`. -/
def splitP (p : Char → Bool) : List Char → List (List Char)
  | [] => [[]]
  | c :: rest =>
    if p c then [] :: splitP p rest
    else
      match splitP p rest with
      | [] => [[c]]
      | r :: rs => (c :: r) :: rs

/-- Python `text.split(d)` for a single-character separator `d`. -/
def splitChar (d : Char) (s : List Char) : List (List Char) :=
  splitP (fun c => c == d) s

/-- Python `s.split()` (no argument): split on whitespace runs and drop the
empty chunks. -/
def pySplitWs (s : List Char) : List (List Char) :=
  (splitP isPySpace s).filter (fun t => !t.isEmpty)

/-- Python `s.replace(c, rep)` for a one-character pattern `c`: every
occurrence of `c` is replaced by `rep`. -/
def replaceChar (c : Char) (rep : List Char) : List Char → List Char
  | [] => []
  | x :: rest =>
    if x = c then rep ++ replaceChar c rep rest
    else x :: replaceChar c rep rest

/-- The label-escaping chain of `main.py` lines 188 and 207:
`.replace('"', '&quot;').replace("'", "&#39;").replace('\n', '<br/>')`. -/
def escapeLabel (s : List Char) : List Char :=
  replaceChar newlineChar "<br/>".toList
    (replaceChar squoteChar "&#39;".toList
      (replaceChar dquoteChar "&quot;".toList s))

/-- `main.py` lines 155-161: build the fragment list `sentences`.
First split on `。`, strip each piece and keep it when it is non-empty and
strictly longer than 3 characters; if nothing survives, retry with `,`;
if still nothing, use the whole stripped text as the single fragment. -/
def sentencesOf (text : List Char) : List (List Char) :=
  let s1 := ((splitChar '。' text).map pyStrip).filter
    (fun s => !s.isEmpty && decide (3 < s.length))
  let s2 := if s1.isEmpty then
      ((splitChar ',' text).map pyStrip).filter
        (fun s => !s.isEmpty && decide (3 < s.length))
    else s1
  if s2.isEmpty then [pyStrip text] else s2

/-- `main.py` lines 170-185: per-fragment display-text shaping.
A fragment longer than 15 characters is split at the token midpoint into two
lines (each line cut to its first 17 characters plus `...` when longer than
20) when it has more than 2 whitespace tokens; otherwise it is cut to its
first 25 characters plus `...` when longer than 25. Fragments of length at
most 15 are used verbatim. -/
def shapeNodeText (sentence : List Char) : List Char :=
  if 15 < sentence.length then
    let words := pySplitWs sentence
    if 2 < words.length then
      let mid := words.length / 2
      let line1 := List.intercalate [' '] (words.take mid)
      let line2 := List.intercalate [' '] (words.drop mid)
      let line1 := if 20 < line1.length then line1.take 17 ++ "...".toList else line1
      let line2 := if 20 < line2.length then line2.take 17 ++ "...".toList else line2
      line1 ++ "<br/>".toList ++ line2
    else
      if 25 < sentence.length then sentence.take 25 ++ "...".toList else sentence
  else sentence

/-- `main.py` lines 164-165: the fixed header of the fallback diagram
(`graph TD` plus the root-to-main edge declaring nodes `A` and `B`). -/
def headerLines : List Char :=
  "graph TD\n    A[語音轉錄內容] --> B[主要內容]\n".toList

/-- `main.py` lines 192-197: the fixed style block of the fallback diagram
(three `classDef` directives and the two `class` bindings). -/
def styleLines : List Char :=
  ("\n    classDef default fill:#f9f9f9,stroke:#333,stroke-width:2px,font-size:14px;\n" ++
   "    classDef highlight fill:#e3f2fd,stroke:#1976d2,stroke-width:3px,font-weight:bold;\n" ++
   "    classDef content fill:#fff3e0,stroke:#f57c00,stroke-width:2px;\n" ++
   "    class A highlight;\n" ++
   "    class B content;\n").toList

/-- `main.py` lines 169-189, one loop iteration: the emitted edge line
`    B --> {chr(67+i)}["{escaped shaped text}"]\n`. -/
def nodeLineFor (i : Nat) (sentence : List Char) : List Char :=
  "    B --> ".toList ++ [Char.ofNat (67 + i)] ++ "[\"".toList
    ++ escapeLabel (shapeNodeText sentence) ++ "\"]\n".toList

/-- The node lines emitted by the loop `for i, sentence in
enumerate(sentences[:4])` of `main.py` line 168. -/
def contentNodeLines (text : List Char) : List (List Char) :=
  ((sentencesOf text).take 4).enum.map (fun p => nodeLineFor p.1 p.2)

/-- The escaped labels embedded by that same loop, in emission order. -/
def contentLabels (text : List Char) : List (List Char) :=
  ((sentencesOf text).take 4).map (fun s => escapeLabel (shapeNodeText s))

/-- The result dictionary `{"type": "mermaid", "mermaid_code": ...}`. -/
structure MindmapResult where
  type : String
  mermaid_code : List Char
deriving DecidableEq

/-- `main.py` lines 149-202, the normal (non-fault) path of
`generate_fallback_mindmap`: header, then the content-node lines of the
first 4 fragments, then the style block. -/
def generate_fallback_mindmap (text : List Char) : MindmapResult :=
  ⟨"mermaid", headerLines ++ (contentNodeLines text).flatten ++ styleLines⟩

/-- Fixed text of `main.py` line 210 before the inserted label. -/
def minimalCodeHead : List Char :=
  "graph TD\n    A[語音轉錄] --> B[\"".toList

/-- Fixed text of `main.py` line 210 after the inserted label. -/
def minimalCodeTail : List Char :=
  ("...\"]\n    classDef default fill:#f9f9f9,stroke:#333,stroke-width:2px,font-size:14px;\n" ++
   "    classDef highlight fill:#e3f2fd,stroke:#1976d2,stroke-width:3px;\n" ++
   "    class A highlight;").toList

/-- `main.py` lines 204-211, the `except` branch of
`generate_fallback_mindmap`: the minimal two-node diagram whose single
content label is `clean_text = text[:20]` passed through the escaping
chain, followed by `...`. -/
def minimalMindmap (text : List Char) : MindmapResult :=
  ⟨"mermaid", minimalCodeHead ++ escapeLabel (text.take 20) ++ minimalCodeTail⟩

/-- The `try`/`except` structure of `generate_fallback_mindmap`
(`main.py` lines 153-211): the body of the `try` is total, so the embedding
makes the occurrence of an internal fault during it an explicit boolean
parameter; the function returns a `MindmapResult` in either case and has no
error outcome, mirroring that the `except Exception` clause swallows every
fault at the function's own boundary. -/
def generateFallbackMindmapT (fault : Bool) (text : List Char) : MindmapResult :=
  if fault then minimalMindmap text else generate_fallback_mindmap text

/-- Written from the spec's words (&#167;4.1 step 1): the usable fragments for a
delimiter are the trimmed pieces of the split that are strictly longer than
3 characters. -/
def usableFragments (d : Char) (text : List Char) : List (List Char) :=
  ((splitChar d text).map pyStrip).filter (fun t => decide (3 < t.length))

/-- Written from the spec's words (&#167;4.1 step 1): try the full-stop-equivalent
delimiter first, then the comma, then fall back to the whole trimmed text as
the single fragment. To be compared with `sentencesOf`. -/
def sentencesSpec (text : List Char) : List (List Char) :=
  if (usableFragments '。' text).isEmpty then
    if (usableFragments ',' text).isEmpty then [pyStrip text]
    else usableFragments ',' text
  else usableFragments '。' text

/-- Written from the spec's words (&#167;4.1 step 4): a display line is cut to
its first 17 characters plus an ellipsis marker when it exceeds 20. -/
def truncateLine (line : List Char) : List Char :=
  if 20 < line.length then line.take 17 ++ "...".toList else line

/-- Written from the spec's words (&#167;4.1 step 4): fragments of length at most
15 are verbatim; longer fragments with at least 3 tokens are split at the
token midpoint into two truncated display lines; longer fragments with fewer
than 3 tokens are cut to 25 characters plus an ellipsis marker when longer
than 25. To be compared with `shapeNodeText`. -/
def shapeSpecText (frag : List Char) : List Char :=
  if frag.length ≤ 15 then frag
  else
    let toks := pySplitWs frag
    if 3 ≤ toks.length then
      truncateLine (List.intercalate [' '] (toks.take (toks.length / 2)))
        ++ "<br/>".toList
        ++ truncateLine (List.intercalate [' '] (toks.drop (toks.length / 2)))
    else if 25 < frag.length then frag.take 25 ++ "...".toList else frag

/-- `main.py` lines 62-66: the fixed allow-list of Gemini model ids. -/
def AVAILABLE_MODELS : List String :=
  ["gemini-1.5-flash", "gemini-1.5-pro", "gemini-1.0-pro"]

/-- A raised FastAPI `HTTPException` (status code and detail string). -/
structure HTTPError where
  status_code : Nat
  detail : String
deriving DecidableEq

/-- The success payload of the `/generate-mindmap` endpoint
(`main.py` lines 244-248). -/
structure MindmapResponse where
  success : Bool
  model_used : String
  mindmap : MindmapResult
deriving DecidableEq

/-- The detail string of the HTTPException built at `main.py` lines 237-240
for a model id outside the allow-list. -/
def unsupportedModelDetail (model : String) : String :=
  "不支援的模型: " ++ model ++ ". 可用模型: " ++ String.intercalate ", " AVAILABLE_MODELS

/-- `main.py` lines 230-255, `generate_mindmap_endpoint`.
The `gen` parameter abstracts the value of
`generate_mindmap_data(request.text, request.model)`, the external-AI call
(with fallback) that the code performs only after the allow-list check
passes. The `try` body either raises HTTPException(400, ...) for an id
outside `AVAILABLE_MODELS` or returns the success payload; the blanket
`except Exception` clause (line 250) catches any exception raised inside
the `try` - including that HTTPException, since FastAPI's HTTPException is
an `Exception` subclass - and re-raises HTTPException(500,
f"架構圖生成失敗: {str(e)}"), where Starlette renders `str(e)` of an
HTTPException as `f"{status_code}: {detail}"`. -/
def generate_mindmap_endpoint (model : String) (gen : MindmapResult) :
    Except HTTPError MindmapResponse :=
  let tryBlock : Except HTTPError MindmapResponse :=
    if model ∉ AVAILABLE_MODELS then
      .error ⟨400, unsupportedModelDetail model⟩
    else
      .ok ⟨true, model, gen⟩
  match tryBlock with
  | .ok v => .ok v
  | .error e =>
      .error ⟨500, "架構圖生成失敗: " ++ toString e.status_code ++ ": " ++ e.detail⟩

/-- Every character of `replaceChar c rep s` comes from `rep` or is a
character of `s` other than `c`. -/
theorem mem_replaceChar {c : Char} {rep s : List Char} {x : Char}
    (hx : x ∈ replaceChar c rep s) : x ∈ rep ∨ (x ∈ s ∧ x ≠ c) := by
  induction s with
  | nil => simp [replaceChar] at hx
  | cons a t ih =>
    by_cases hac : a = c
    · rw [replaceChar, if_pos hac] at hx
      rcases List.mem_append.mp hx with h | h
      · exact .inl h
      · rcases ih h with h | ⟨h1, h2⟩
        · exact .inl h
        · exact .inr ⟨List.mem_cons_of_mem a h1, h2⟩
    · rw [replaceChar, if_neg hac] at hx
      rcases List.mem_cons.mp hx with rfl | h
      · exact .inr ⟨List.mem_cons_self x t, hac⟩
      · rcases ih h with h | ⟨h1, h2⟩
        · exact .inl h
        · exact .inr ⟨List.mem_cons_of_mem a h1, h2⟩

/-- `replaceChar` is the identity on lists that do not contain the
pattern character. -/
theorem replaceChar_of_not_mem {c : Char} {rep s : List Char}
    (h : ∀ x ∈ s, x ≠ c) : replaceChar c rep s = s := by
  induction s with
  | nil => rfl
  | cons a t ih =>
    rw [replaceChar, if_neg (h a (List.mem_cons_self a t))]
    rw [ih (fun x hx => h x (List.mem_cons_of_mem a hx))]

/-- No character of an escaped label is a raw double quote, single quote or
newline: the three replacement strings contain none of those characters, and
every original occurrence has been replaced. -/
theorem escapeLabel_no_special {s : List Char} :
    ∀ x ∈ escapeLabel s, x ≠ dquoteChar ∧ x ≠ squoteChar ∧ x ≠ newlineChar := by
  intro x hx
  have hB : ∀ y ∈ "<br/>".toList,
      y ≠ dquoteChar ∧ y ≠ squoteChar ∧ y ≠ newlineChar := by decide
  have hA : ∀ y ∈ "&#39;".toList, y ≠ dquoteChar ∧ y ≠ squoteChar := by decide
  have hQ : ∀ y ∈ "&quot;".toList, y ≠ dquoteChar := by decide
  unfold escapeLabel at hx
  rcases mem_replaceChar hx with h | ⟨h2, hn⟩
  · exact hB x h
  rcases mem_replaceChar h2 with h | ⟨h1, hq⟩
  · exact ⟨(hA x h).1, (hA x h).2, hn⟩
  rcases mem_replaceChar h1 with h | ⟨_, hdq⟩
  · exact ⟨hQ x h, hq, hn⟩
  · exact ⟨hdq, hq, hn⟩

/-- Claim C1: for every input string the fallback formatter returns a result
whose `mermaid_code` body is a non-empty string (the Lean embedding is a
total function, so termination and absence of escaping exceptions hold by
construction), with the fixed `"mermaid"` type tag. -/
theorem fallback_mindmap_body_nonempty (text : List Char) :
    (generate_fallback_mindmap text).mermaid_code ≠ [] ∧
    (generate_fallback_mindmap text).type = "mermaid" := by
  refine ⟨?_, rfl⟩
  intro h
  have h' : headerLines = [] := (List.append_eq_nil.mp (List.append_eq_nil.mp h).1).1
  exact absurd h' (by decide)

/-- Claim C2: the body is the fixed header (declaring nodes A and B and the
single root-to-main edge), then one content-node line per fragment for the
first 4 fragments in original order, then the fixed style block; there are
`min 4 (number of fragments)` content lines, hence at most 4 content edges
and at most 2 + 4 = 6 node declarations, and fragments beyond the fourth
are dropped. -/
theorem fallback_caps_at_four_nodes (text : List Char) :
    (generate_fallback_mindmap text).mermaid_code
      = headerLines ++ (contentNodeLines text).flatten ++ styleLines
    ∧ (contentNodeLines text).length = min 4 (sentencesOf text).length
    ∧ (contentNodeLines text).length ≤ 4
    ∧ 2 + (contentNodeLines text).length ≤ 6
    ∧ contentNodeLines text
        = ((sentencesOf text).take 4).enum.map (fun p => nodeLineFor p.1 p.2) := by
  have hlen : (contentNodeLines text).length = min 4 (sentencesOf text).length := by
    simp [contentNodeLines, List.length_take]
  refine ⟨rfl, hlen, ?_, ?_, rfl⟩
  · rw [hlen]; omega
  · rw [hlen]; omega

/-- Claim C3: no label embedded in the output body (neither the escaped
shaped labels of the content nodes nor the escaped 20-character label of the
minimal form) contains a raw double-quote or single-quote character, because
the escaping chain replaces them with HTML entities first. -/
theorem fallback_labels_no_raw_quotes (text : List Char) :
    (∀ lbl ∈ contentLabels text, ∀ c ∈ lbl, c ≠ dquoteChar ∧ c ≠ squoteChar)
    ∧ (∀ c ∈ escapeLabel (text.take 20), c ≠ dquoteChar ∧ c ≠ squoteChar) := by
  constructor
  · intro lbl hl c hc
    simp only [contentLabels, List.mem_map] at hl
    obtain ⟨s, -, rfl⟩ := hl
    exact ⟨(escapeLabel_no_special c hc).1, (escapeLabel_no_special c hc).2.1⟩
  · intro c hc
    exact ⟨(escapeLabel_no_special c hc).1, (escapeLabel_no_special c hc).2.1⟩

/-- Witness for C3 at the concrete input `"abcde"`, whose single content
label is `"abcde"` and contains the character `a`. -/
theorem fallback_labels_no_raw_quotes_witness :
    ('a' : Char) ≠ dquoteChar ∧ ('a' : Char) ≠ squoteChar :=
  (fallback_labels_no_raw_quotes "abcde".toList).1 "abcde".toList (by decide)
    'a' (by decide)

/-- Claim C4: segmentation tries the full-stop-equivalent delimiter, then
the comma, then falls back to the whole trimmed input; the source's filter
(`s.strip() and len(s.strip()) > 3`) coincides with the spec's notion of a
usable fragment (trimmed length strictly greater than 3). -/
theorem segmentation_preference_order (text : List Char) :
    sentencesOf text = sentencesSpec text := by
  have hf : ∀ l : List (List Char),
      l.filter (fun s => !s.isEmpty && decide (3 < s.length))
        = l.filter (fun t => decide (3 < t.length)) := by
    intro l
    refine List.filter_congr ?_
    intro t _
    cases t with
    | nil => simp
    | cons a s => simp
  simp only [sentencesOf, sentencesSpec, usableFragments, hf]
  by_cases h1 :
      (((splitChar '。' text).map pyStrip).filter (fun t => decide (3 < t.length))).isEmpty
  · by_cases h2 :
        (((splitChar ',' text).map pyStrip).filter (fun t => decide (3 < t.length))).isEmpty
    · simp [h1, h2]
    · simp [h1, h2]
  · simp [h1]

/-- Claim C5: the source's per-fragment shaping agrees with the spec's
description: fragments of length at most 15 verbatim; longer fragments with
at least 3 whitespace tokens split at the token midpoint into two display
lines each cut to 17 characters plus an ellipsis when over 20; longer
fragments with fewer tokens cut to 25 characters plus an ellipsis when over
25. -/
theorem fragment_shaping_matches_spec (frag : List Char) :
    shapeNodeText frag = shapeSpecText frag := by
  simp only [shapeNodeText, shapeSpecText, truncateLine]
  split_ifs <;> first | rfl | omega

/-- Claim C6: when an internal fault occurs, the formatter still returns a
result (the embedding has no error outcome) and that result is the minimal
form: the root node, one node whose label is the raw input's first 20
characters passed through the escaping chain followed by the ellipsis
marker, only the `default` and `highlight` style directives, and the root
node bound to `highlight`. -/
theorem internal_fault_minimal_form (text : List Char) :
    generateFallbackMindmapT true text =
      { type := "mermaid"
        mermaid_code := ("graph TD\n    A[語音轉錄] --> B[\"").toList
          ++ escapeLabel (text.take 20)
          ++ ("...\"]\n    classDef default fill:#f9f9f9,stroke:#333,stroke-width:2px,font-size:14px;\n    classDef highlight fill:#e3f2fd,stroke:#1976d2,stroke-width:3px;\n    class A highlight;").toList } := by
  rfl

/-- Claim C7: the quote-and-newline escaping chain is idempotent: the
escaped output contains none of the three replaced characters, so a second
application changes nothing and already-escaped entities are not
double-escaped. -/
theorem escaping_idempotent (s : List Char) :
    escapeLabel (escapeLabel s) = escapeLabel s := by
  have h := @escapeLabel_no_special s
  show replaceChar newlineChar "<br/>".toList
      (replaceChar squoteChar "&#39;".toList
        (replaceChar dquoteChar "&quot;".toList (escapeLabel s))) = escapeLabel s
  rw [replaceChar_of_not_mem (fun x hx => (h x hx).1),
      replaceChar_of_not_mem (fun x hx => (h x hx).2.1),
      replaceChar_of_not_mem (fun x hx => (h x hx).2.2)]

/-- Claim C8: on the empty input both delimiter attempts yield zero usable
fragments, the whole (empty) trimmed text becomes the single fragment, and
the body carries exactly one content node whose label is empty. -/
theorem empty_input_single_empty_label :
    usableFragments '。' [] = [] ∧ usableFragments ',' [] = []
    ∧ sentencesOf [] = [([] : List Char)]
    ∧ contentLabels [] = [([] : List Char)]
    ∧ (contentNodeLines []).length = 1 := by
  decide

/-- Claim C9 (evaluating the code at the failing input): for the model id
`"gpt-4"`, which is outside `AVAILABLE_MODELS`, the endpoint's own
`except Exception` clause catches the HTTPException(400) raised by the
allow-list check and re-raises it as HTTP 500, so the observable response is
a 500 - not the 400 the claim states - and the generation result is never
consulted (no generation call is attempted). -/
theorem unsupported_model_returns_500 :
    generate_mindmap_endpoint "gpt-4" ⟨"mermaid", []⟩ =
      .error ⟨500, "架構圖生成失敗: 400: 不支援的模型: gpt-4. 可用模型: gemini-1.5-flash, gemini-1.5-pro, gemini-1.0-pro"⟩
    ∧ (∀ g : MindmapResult, generate_mindmap_endpoint "gpt-4" g
        = generate_mindmap_endpoint "gpt-4" ⟨"mermaid", []⟩)
    ∧ (∀ e : MindmapResponse, generate_mindmap_endpoint "gpt-4" ⟨"mermaid", []⟩ ≠ .ok e)
    ∧ generate_mindmap_endpoint "gpt-4" ⟨"mermaid", []⟩ ≠
        .error ⟨400, unsupportedModelDetail "gpt-4"⟩ := by
  refine ⟨rfl, fun g => rfl, fun e h => ?_, fun h => ?_⟩
  · exact Except.noConfusion h
  · have h500 : (400 : Nat) = 500 := by
      have := (Except.error.injEq _ _).mp h.symm
      exact congrArg HTTPError.status_code this
    omega

/-- Claim C10: truncation happens before escaping. For the input of 30
double-quote characters the shaped fragment is cut to 25 characters plus the
ellipsis (28 characters, within the pre-escaping budget), but the escaped
label embedded in the body has length 153 > 28 because each quote expands to
the 6-character entity; likewise the minimal form's 20-character budget
yields an escaped label of length 120 > 20. -/
theorem truncation_precedes_escaping :
    (shapeNodeText (List.replicate 30 dquoteChar)).length = 28
    ∧ (escapeLabel (shapeNodeText (List.replicate 30 dquoteChar))).length = 153
    ∧ 28 < (escapeLabel (shapeNodeText (List.replicate 30 dquoteChar))).length
    ∧ (∃ u v, (generate_fallback_mindmap (List.replicate 30 dquoteChar)).mermaid_code
        = u ++ escapeLabel (shapeNodeText (List.replicate 30 dquoteChar)) ++ v)
    ∧ (escapeLabel ((List.replicate 30 dquoteChar).take 20)).length = 120
    ∧ 20 < (escapeLabel ((List.replicate 30 dquoteChar).take 20)).length := by
  refine ⟨by decide, by decide, by decide,
    ⟨headerLines ++ "    B --> C[\"".toList, "\"]\n".toList ++ styleLines, by decide⟩,
    by decide, by decide⟩
